import Mathlib

/-!
Verification of the capture/detect/debounce pipeline of `ha_cam_tag`
(`src/ha_cam_tag/__main__.py`), as a shallow embedding in Lean.

Modelling conventions:
* Python exceptions are values of `PyError`; fallible code returns `Except PyError _`.
* `datetime.now()` timestamps are integers counting seconds
  (`timedelta(seconds=5)` becomes the integer `5`).
* Strings and lists are Lean `String` / `List`.
* The two threads are embedded as script-driven step functions: the supervisor
  consumes a script of open/read outcomes, the detector consumes one decode
  outcome per wake-up.
-/

set_option autoImplicit false

namespace HaCamTag

/-- Python exception classes reachable in this program. `keyboardInterrupt` and
`systemExit` derive from `BaseException` only; the rest derive from `Exception`. -/
inductive PyError where
  | nameError
  | typeError
  | keyError
  | cv2Error
  | unexpectedError
  | keyboardInterrupt
  | systemExit
  deriving DecidableEq, Repr

/-- Whether an exception class is a subclass of Python's `Exception`
(so `except Exception` catches it). -/
def PyError.isException : PyError → Bool
  | .keyboardInterrupt => false
  | .systemExit => false
  | _ => true

/-- Whether an exception is a `cv2.error` (so `except cv2.error` catches it). -/
def PyError.isCv2Error : PyError → Bool
  | .cv2Error => true
  | _ => false

/-! ## The identifier pattern

`TAG_ID_PATTERN = re.compile(r"https://www.home-assistant.io/tag/([0-9a-fA-F-]+)")`,
used as `TAG_ID_PATTERN.match(data)` followed by `m.group(1)`.

In this regex every character of the base URL is a literal except the two dots,
which are the `.` metacharacter (any character). The capture group is a greedy
`+` over the character class `[0-9a-fA-F-]` with nothing after it, so `re.match`
succeeds iff the text starts with the (dot-wildcarded) base followed by at least
one class character, and the group is the maximal run of class characters;
`re.match` anchors at the start only, trailing text is ignored. -/

/-- The source text of the regex between `https://` and the capture group,
with `.` left as written: `www.home-assistant.io/tag/` preceded by the scheme. -/
def TAG_ID_PATTERN_text : String := "https://www.home-assistant.io/tag/"

/-- Membership in the regex character class `[0-9a-fA-F-]`. -/
def isTagIdChar (c : Char) : Bool :=
  (('0' ≤ c && c ≤ '9') || ('a' ≤ c && c ≤ 'f') || ('A' ≤ c && c ≤ 'F') || c == '-')

/-- Match the pattern characters `pat` (where `.` matches any character and every
other character matches itself) against a prefix of `cs`; return the rest of `cs`. -/
def matchPatChars : List Char → List Char → Option (List Char)
  | [], cs => some cs
  | _ :: _, [] => none
  | p :: ps, c :: cs => if p == '.' || p == c then matchPatChars ps cs else none

/-- Shallow embedding of `TAG_ID_PATTERN.match(data)` followed by `.group(1)`:
`none` when `re.match` returns no match object, otherwise the captured token. -/
def tagIdPatternMatch (data : String) : Option String :=
  match matchPatChars TAG_ID_PATTERN_text.toList data.toList with
  | none => none
  | some rest =>
    let run := rest.takeWhile isTagIdChar
    if run.isEmpty then none else some (String.mk run)

/-! ## The debounce gate (inside `detector_loop`)

```python
DEBOUNCE_PERIOD = timedelta(seconds=5)
last_time, last_tag = None, None
...
if last_tag != tag_id or last_time < cur_time - DEBOUNCE_PERIOD:
    send_tag_event(tag_id, config["tag_event_device_id"])
    last_time, last_tag = cur_time, tag_id
```

Python's `or` short-circuits; comparing `None < datetime` raises `TypeError`. -/

/-- `DEBOUNCE_PERIOD = timedelta(seconds=5)`, in seconds. -/
def DEBOUNCE_PERIOD : Int := 5

/-- The detector's debounce variables `(last_time, last_tag)`,
both initialised to `None`. -/
structure DebounceState where
  last_time : Option Int
  last_tag : Option String
  deriving DecidableEq, Repr

/-- The condition `last_tag != tag_id or last_time < cur_time - DEBOUNCE_PERIOD`,
with Python's left-to-right short-circuit `or`; evaluating
`None < cur_time - DEBOUNCE_PERIOD` raises `TypeError`. -/
def debounceCond (s : DebounceState) (tag_id : String) (cur_time : Int) :
    Except PyError Bool :=
  if s.last_tag ≠ some tag_id then .ok true
  else
    match s.last_time with
    | none => .error .typeError
    | some t => .ok (decide (t < cur_time - DEBOUNCE_PERIOD))

/-- One pass of the debounce gate: on a true condition, `send_tag_event` fires
(the returned flag) and `last_time, last_tag = cur_time, tag_id`; otherwise no
dispatch and no state change. -/
def debounceStep (s : DebounceState) (tag_id : String) (cur_time : Int) :
    Except PyError (Bool × DebounceState) :=
  match debounceCond s tag_id cur_time with
  | .error e => .error e
  | .ok true => .ok (true, ⟨some cur_time, some tag_id⟩)
  | .ok false => .ok (false, s)

/-- Run the debounce gate over a list of `(tag_id, cur_time)` candidates,
counting the dispatches (`send_tag_event` calls). -/
def debounceRun (s : DebounceState) : List (String × Int) → Except PyError (DebounceState × Nat)
  | [] => .ok (s, 0)
  | (tag, t) :: rest =>
    match debounceStep s tag t with
    | .error e => .error e
    | .ok (b, s') =>
      match debounceRun s' rest with
      | .error e => .error e
      | .ok (s'', n) => .ok (s'', (if b then 1 else 0) + n)

/-! ## The detector loop

```python
def detector_loop(cv, exiting, config):
    detector = cv2.QRCodeDetector()
    last_time, last_tag = None, None
    while not exiting.is_set():
        cv.wait()
        if frame is not None:
            try:
                data, _, _ = detector.detectAndDecode(frame)
                if data and (m := TAG_ID_PATTERN.match(data)):
                    cur_time, tag_id = datetime.now(), m.group(1)
                    if last_tag != tag_id or last_time < cur_time - DEBOUNCE_PERIOD:
                        send_tag_event(tag_id, config["tag_event_device_id"])
                        last_time, last_tag = cur_time, tag_id
            except cv2.error as e: ...
            except Exception as e: ...
        else: ...
        cv.clear()
```

`frame` is read but never assigned inside `detector_loop`, so Python resolves it
in the module's global namespace. -/

/-- The names bound at module level in `__main__.py`: the twelve imports and the
module-level assignments and `def`s. `frame` is not among them — `frame` is
assigned only as a local variable of `main`. -/
def moduleLevelNames : List String :=
  ["logging", "re", "signal", "sys", "threading", "time", "json", "os",
   "requests", "datetime", "timedelta", "cv2",
   "CONFIG_PATH", "API_URL", "AUTH_TOKEN", "DEBOUNCE_PERIOD", "TAG_ID_PATTERN",
   "send_tag_event", "load_config", "detector_loop", "main"]

/-- The names assigned somewhere in the body of `detector_loop` (its parameters
and its assigned locals). A name read in the function that is not in this list
is looked up as a global. -/
def detectorLoopLocalNames : List String :=
  ["cv", "exiting", "config", "detector", "last_time", "last_tag",
   "data", "m", "cur_time", "tag_id", "e"]

/-- Python name resolution for the read of `frame` at `if frame is not None:`
in `detector_loop`: `frame` is not a local of the function and not a module
global, so the read raises `NameError`. -/
def lookupFrameInDetector : Except PyError Unit :=
  if detectorLoopLocalNames.contains "frame" then .ok ()
  else if moduleLevelNames.contains "frame" then .ok ()
  else .error .nameError

/-- Outcome of `detector.detectAndDecode(frame)` on one frame: decoded text,
falsy/empty text, a raised `cv2.error`, or any other raised `Exception`. -/
inductive DecodeOutcome where
  | text (data : String)
  | empty
  | cvError
  | unexpected
  deriving DecidableEq, Repr

/-- Result of one pass of the detector's `while` body: either the loop proceeds
to the next iteration (with the debounce state it continues with, and the tag
dispatched by `send_tag_event`, if any), or an uncaught exception terminates
the thread. -/
inductive IterResult where
  | next (s : DebounceState) (sent : Option String)
  | crash (e : PyError)
  deriving DecidableEq, Repr

/-- The body of the `try:` block for one frame: decode, pattern-match, debounce,
dispatch. An `.error` is an exception raised inside the `try`. -/
def detectorTryBody (s : DebounceState) (dec : DecodeOutcome) (now : Int) :
    Except PyError (DebounceState × Option String) :=
  match dec with
  | .cvError => .error .cv2Error
  | .unexpected => .error .unexpectedError
  | .empty => .ok (s, none)
  | .text data =>
    match tagIdPatternMatch data with
    | none => .ok (s, none)
    | some tag =>
      match debounceStep s tag now with
      | .error e => .error e
      | .ok (true, s') => .ok (s', some tag)
      | .ok (false, s') => .ok (s', none)

/-- The `try`/`except` around the frame-processing body: `except cv2.error`
logs and falls through; `except Exception` logs and falls through; an exception
caught by neither would propagate and kill the thread. -/
def detectorTryExceptStep (s : DebounceState) (dec : DecodeOutcome) (now : Int) :
    IterResult :=
  match detectorTryBody s dec now with
  | .ok (s', sent) => .next s' sent
  | .error e =>
    if e.isCv2Error then .next s none
    else if e.isException then .next s none
    else .crash e

/-- One full pass of the detector's `while` body after `cv.wait()` returns:
first the read of `frame` (which resolves globally, outside the `try`), then,
were it to succeed, the guarded `try`/`except` processing. -/
def detectorIteration (s : DebounceState) (dec : DecodeOutcome) (now : Int) :
    IterResult :=
  match lookupFrameInDetector with
  | .error e => .crash e
  | .ok _ => detectorTryExceptStep s dec now

/-! ## The lifecycle controller (signal handling in `main`)

```python
signal.signal(signal.SIGINT, lambda sig, frame: exiting.set())
...
except KeyboardInterrupt:
    logging.info("Exiting due to keyboard interrupt.")
    exiting.set()
    cv.set()
```

`exiting` and `cv` are both `threading.Event`s; the detector blocks in
`cv.wait()`, which returns only once the event's internal flag is true. -/

/-- The two `threading.Event` flags shared between `main` and `detector_loop`:
`exiting` (the shutdown signal) and `cv` (the new-frame signal the detector
waits on). -/
structure LifecycleState where
  exiting : Bool
  cvSet : Bool
  deriving DecidableEq, Repr

/-- The installed SIGINT handler, `lambda sig, frame: exiting.set()`. -/
def sigintHandler (s : LifecycleState) : LifecycleState :=
  { s with exiting := true }

/-- The `except KeyboardInterrupt` branch of `main`, `exiting.set(); cv.set()`
(unreachable once the SIGINT handler is installed, since SIGINT no longer
raises `KeyboardInterrupt`). -/
def keyboardInterruptBranch (s : LifecycleState) : LifecycleState :=
  { s with exiting := true, cvSet := true }

/-- Whether `cv.wait()` can return given the current flag: `threading.Event.wait`
with no timeout returns only once the internal flag is true; with the flag
false it blocks until some thread calls `cv.set()`. -/
def eventWaitReturns (s : LifecycleState) : Bool := s.cvSet

/-! ## Configuration loading and startup order

```python
def load_config():
    try:
        with open(CONFIG_PATH, "r") as fh:
            return json.load(fh)
    except FileNotFoundError: ... sys.exit(1)
    except json.JSONDecodeError as e: ... sys.exit(1)

def main():
    config = load_config()
    ...
    detector_thread = threading.Thread(...)
    detector_thread.start()
```
-/

/-- A parsed JSON configuration object: its key/value entries.
Values are kept as strings, the shape the two recognized options have. -/
structure ConfigData where
  entries : List (String × String)
  deriving DecidableEq, Repr

/-- Python dict subscription `config[k]`: `KeyError` when the key is absent. -/
def ConfigData.get (c : ConfigData) (k : String) : Except PyError String :=
  match c.entries.find? (fun p => p.1 == k) with
  | some p => .ok p.2
  | none => .error .keyError

/-- The state of the file at `CONFIG_PATH` as `load_config` can encounter it:
absent (`FileNotFoundError`), present but not valid JSON (`JSONDecodeError`),
or present and parsed. -/
inductive ConfigFile where
  | missing
  | unparsable
  | parsed (c : ConfigData)
  deriving DecidableEq, Repr

/-- `load_config`: `FileNotFoundError` and `json.JSONDecodeError` are caught and
turn into `sys.exit(1)` (the returned error is the exit status); any parsed
JSON value is returned as-is — no option is validated. -/
def load_config : ConfigFile → Except Nat ConfigData
  | .missing => .error 1
  | .unparsable => .error 1
  | .parsed c => .ok c

/-- How far `main`'s prologue gets: `sys.exit(code)` inside `load_config`
terminates the process before any thread exists; otherwise the next statements
create and start the detector thread. -/
inductive StartupOutcome where
  | exited (code : Nat)
  | threadStarted (c : ConfigData)
  deriving DecidableEq, Repr

/-- The prologue of `main`: `config = load_config()` then
`detector_thread.start()`. -/
def mainStartup (f : ConfigFile) : StartupOutcome :=
  match load_config f with
  | .error code => .exited code
  | .ok c => .threadStarted c

/-! ## The stream supervisor (the outer loop of `main`)

```python
while not exiting.is_set():
    stream = cv2.VideoCapture(config["camera_rtsp_stream"])
    if not stream.isOpened():
        logging.error("Failed to open camera stream.")
        time.sleep(5)
        continue
    while stream.isOpened() and not exiting.is_set():
        ret, frame = stream.read()
        if ret and frame is not None:
            cv.set()  # Signal new frame is ready
        else:
            logging.error(...)
            break
    stream.release()
    time.sleep(5)
```

Embedded as a trace-producing function over a script of externally determined
outcomes (one entry per outer-loop round), for runs on which the shutdown
signal stays unset. -/

/-- Observable actions of the supervisor loop: a `cv2.VideoCapture` construction
(an open attempt), a `time.sleep(5)`, a `cv.set()` after a successful read
(a publish into the frame slot), and a `stream.release()`. -/
inductive SupEvent where
  | openAttempt
  | sleep5
  | publish
  | release
  deriving DecidableEq, Repr

/-- One round of the outer loop, as decided by the environment: either
`stream.isOpened()` is false right after the open, or the open succeeds and the
stream yields the given read outcomes (`true` = `ret and frame is not None`). -/
inductive RoundOutcome where
  | openFail
  | openOk (reads : List Bool)
  deriving DecidableEq, Repr

/-- The inner read loop on an opened stream: each successful read publishes
(`cv.set()`); the first failed read logs and breaks. (The list ending stands
for `stream.isOpened()` turning false.) -/
def streamReads : List Bool → List SupEvent
  | [] => []
  | true :: rest => .publish :: streamReads rest
  | false :: _ => []

/-- The supervisor's outer loop over a script of rounds, as the trace of its
observable actions: an open failure logs, sleeps 5 seconds and retries; a
successful open runs the read loop, then releases and sleeps 5 seconds. -/
def supervisorRun : List RoundOutcome → List SupEvent
  | [] => []
  | .openFail :: rest =>
    .openAttempt :: .sleep5 :: supervisorRun rest
  | .openOk reads :: rest =>
    .openAttempt :: (streamReads reads ++ .release :: .sleep5 :: supervisorRun rest)

/-- The trace of `n` consecutive failed connection attempts: each is an open
attempt followed by the fixed 5-second backoff. -/
def connectBackoffTrace (n : Nat) : List SupEvent :=
  (List.replicate n [SupEvent.openAttempt, SupEvent.sleep5]).flatten

/-! ## The epilogue of `main`

```python
try:
    while not exiting.is_set():
        stream = cv2.VideoCapture(...)
        ...
except KeyboardInterrupt: ...
finally:
    stream.release()
    cv2.destroyAllWindows()

detector_thread.join()
logging.info("Exited gracefully.")
return 0
```

The local `stream` is assigned only inside the loop body; the `finally` clause
reads it unconditionally. -/

/-- How `main` ends: `return 0` reached, or an exception propagating out. -/
inductive MainResult where
  | ok (code : Nat)
  | uncaught (e : PyError)
  deriving DecidableEq, Repr

/-- The `finally` clause's `stream.release()`: reading the local `stream` when
no loop iteration has assigned it raises `NameError` (unbound local). -/
def mainFinallyRelease : Option Unit → Except PyError Unit
  | none => .error .nameError
  | some _ => .ok ()

/-- The supervisor section of `main` after the detector thread starts, sliced
to its `try`/`finally` exit path. `exitingAtEntry` is whether the SIGINT
handler already ran when the outer `while` condition is first checked: the loop
body then never runs, the local `stream` is never bound, and the `finally`
raises. Otherwise at least one iteration binds `stream` and the epilogue
proceeds to `return 0` (once `detector_thread.join()` returns). -/
def mainSupervisorSection (exitingAtEntry : Bool) : MainResult :=
  if exitingAtEntry then
    match mainFinallyRelease none with
    | .error e => .uncaught e
    | .ok _ => .ok 0
  else
    match mainFinallyRelease (some ()) with
    | .error e => .uncaught e
    | .ok _ => .ok 0

/-! ## Helper lemmas -/

/-- The only exception the debounce condition itself can raise is the
`TypeError` from comparing `None` with a datetime. -/
theorem debounceCond_error_typeError (s : DebounceState) (tag : String) (now : Int)
    (e : PyError) (h : debounceCond s tag now = .error e) : e = PyError.typeError := by
  unfold debounceCond at h
  split at h
  · simp at h
  · cases hlt : s.last_time with
    | none => rw [hlt] at h; simp at h; exact h.symm
    | some t => rw [hlt] at h; simp at h

/-- The only exception one debounce pass can raise is `TypeError`. -/
theorem debounceStep_error_typeError (s : DebounceState) (tag : String) (now : Int)
    (e : PyError) (h : debounceStep s tag now = .error e) : e = PyError.typeError := by
  unfold debounceStep at h
  cases hc : debounceCond s tag now with
  | error e' =>
    rw [hc] at h
    simp at h
    subst h
    exact debounceCond_error_typeError _ _ _ _ hc
  | ok b => rw [hc] at h; cases b <;> simp at h

/-- On the fresh state `(None, None)` the gate emits and stores the candidate. -/
theorem debounceStep_fresh (tag : String) (t : Int) :
    debounceStep ⟨none, none⟩ tag t = .ok (true, ⟨some t, some tag⟩) := by
  simp [debounceStep, debounceCond]

/-- On a repeated identifier the gate emits exactly when the stored time is
strictly older than `cur_time - DEBOUNCE_PERIOD`. -/
theorem debounceStep_same_tag (t now : Int) (tag : String) :
    debounceStep ⟨some t, some tag⟩ tag now
      = .ok (if t < now - DEBOUNCE_PERIOD then (true, ⟨some now, some tag⟩)
             else (false, ⟨some t, some tag⟩)) := by
  unfold debounceStep debounceCond
  by_cases h : t < now - DEBOUNCE_PERIOD <;> simp [h]

/-- Unfolding one failed round of the backoff trace. -/
theorem connectBackoffTrace_succ (n : Nat) :
    connectBackoffTrace (n + 1)
      = SupEvent.openAttempt :: SupEvent.sleep5 :: connectBackoffTrace n := by
  simp [connectBackoffTrace, List.replicate_succ]

/-- Splitting the first `n` failed connection rounds off a supervisor run. -/
theorem supervisorRun_replicate_fail (n : Nat) (rest : List RoundOutcome) :
    supervisorRun (List.replicate n RoundOutcome.openFail ++ rest)
      = connectBackoffTrace n ++ supervisorRun rest := by
  induction n with
  | zero => simp [connectBackoffTrace]
  | succ k ih =>
    rw [List.replicate_succ, List.cons_append, connectBackoffTrace_succ]
    simp [supervisorRun, ih]

/-- Each failed connection round contributes one open attempt. -/
theorem count_openAttempt_connectBackoffTrace (n : Nat) :
    (connectBackoffTrace n).count SupEvent.openAttempt = n := by
  induction n with
  | zero => rfl
  | succ k ih =>
    rw [connectBackoffTrace_succ]
    simp [List.count_cons, ih]

/-- The inner read loop performs no open attempts. -/
theorem count_openAttempt_streamReads (reads : List Bool) :
    (streamReads reads).count SupEvent.openAttempt = 0 := by
  induction reads with
  | nil => rfl
  | cons b rest ih => cases b <;> simp [streamReads, List.count_cons, ih]

/-- No frame is published during the failed connection rounds. -/
theorem publish_not_mem_connectBackoffTrace (n : Nat) :
    SupEvent.publish ∉ connectBackoffTrace n := by
  induction n with
  | zero => simp [connectBackoffTrace]
  | succ k ih =>
    rw [connectBackoffTrace_succ]
    simp [ih]

/-- Structure of the per-frame `try`/`except`: every exception raised inside
the `try` block — a `cv2.error` from the decoder, the debounce `TypeError`, or
any other unexpected `Exception` — is caught by the two `except` clauses, the
debounce state is left unchanged, nothing is dispatched, and control falls
through to the next iteration; the guarded processing by itself never crashes
the thread. (In the program this block is never reached: see the claim
theorems about the `frame` lookup below.) -/
theorem detector_errors_caught (s : DebounceState) (dec : DecodeOutcome) (now : Int) :
    detectorTryExceptStep s dec now
      = (match detectorTryBody s dec now with
         | .ok (s', sent) => IterResult.next s' sent
         | .error _ => IterResult.next s none) ∧
    detectorTryExceptStep s .cvError now = IterResult.next s none ∧
    detectorTryExceptStep s .unexpected now = IterResult.next s none ∧
    ∀ e : PyError, detectorTryExceptStep s dec now ≠ IterResult.crash e := by
  have hmain : detectorTryExceptStep s dec now
      = (match detectorTryBody s dec now with
         | .ok (s', sent) => IterResult.next s' sent
         | .error _ => IterResult.next s none) := by
    cases dec with
    | cvError => rfl
    | unexpected => rfl
    | empty => rfl
    | text data =>
      cases hm : tagIdPatternMatch data with
      | none => simp [detectorTryExceptStep, detectorTryBody, hm]
      | some tag =>
        cases hd : debounceStep s tag now with
        | error e =>
          have he : e = PyError.typeError := debounceStep_error_typeError s tag now e hd
          subst he
          simp [detectorTryExceptStep, detectorTryBody, hm, hd, PyError.isCv2Error,
            PyError.isException]
        | ok p =>
          obtain ⟨b, s'⟩ := p
          cases b <;>
            simp [detectorTryExceptStep, detectorTryBody, hm, hd]
  refine ⟨hmain, rfl, rfl, fun e => ?_⟩
  rw [hmain]
  split <;> simp

/-! ## Claim theorems -/

/-- C1: the claim says the installed interrupt handler both sets the shutdown
signal and wakes the frame slot waiters, so the whole process terminates after
a single interrupt. The code contradicts it: the installed handler
`lambda sig, frame: exiting.set()` sets `exiting` but never calls `cv.set()`,
so with no frame pending the detector's `cv.wait()` still cannot return —
unlike the (unreachable) `except KeyboardInterrupt` branch, which does both. -/
theorem sigint_handler_no_wake :
    sigintHandler ⟨false, false⟩ = ⟨true, false⟩ ∧
    eventWaitReturns (sigintHandler ⟨false, false⟩) = false ∧
    keyboardInterruptBranch ⟨false, false⟩ = ⟨true, true⟩ := ⟨rfl, rfl, rfl⟩

/-- C2: the claim says every error raised while decoding or processing a taken
frame is caught and logged and the detector loop continues — no per-frame
error ever terminates it. The code contradicts its own error-handling
structure: the very read of `frame` raises an uncaught `NameError` outside the
`try`, so every pass of the loop body crashes the thread before the guarded
processing — which, as the second conjunct shows, would indeed have caught any
raised exception and continued — is ever reached. -/
theorem detector_loop_terminated_by_name_error
    (s : DebounceState) (dec : DecodeOutcome) (now : Int) :
    detectorIteration s dec now = IterResult.crash PyError.nameError ∧
    ∀ e : PyError, detectorTryExceptStep s dec now ≠ IterResult.crash e :=
  ⟨rfl, (detector_errors_caught s dec now).2.2.2⟩

/-- C3: the claim says each take from the frame slot returns the most recently
published frame. The code has no working handoff at all: the read of `frame`
in `detector_loop` resolves to a module global that does not exist (`frame` is
a local of `main`), so every pass of the detector body raises `NameError`
outside the `try` and the thread crashes on its first wake-up, whatever was
published. -/
theorem detector_iteration_name_error (s : DebounceState) (dec : DecodeOutcome) (now : Int) :
    detectorIteration s dec now = IterResult.crash PyError.nameError := rfl

/-- C4 (amended): the gate emits exactly when the candidate differs from the
last emitted identifier or when now minus the stored time is STRICTLY greater
than DEBOUNCE_PERIOD; consequently the same identifier reported again at
delta strictly greater than 5 seconds gives two dispatches, and at delta at
most 5 seconds (including exactly 5) gives one. -/
theorem debounce_gate_strict_and_counts (t d : Int) (ltag tag : String) :
    debounceCond ⟨some t, some ltag⟩ tag (t + d)
      = .ok ((decide (ltag ≠ tag)) || decide (DEBOUNCE_PERIOD < d)) ∧
    debounceRun ⟨none, none⟩ [(tag, t), (tag, t + d)]
      = .ok (if DEBOUNCE_PERIOD < d then (⟨some (t + d), some tag⟩, 2)
             else (⟨some t, some tag⟩, 1)) := by
  constructor
  · unfold debounceCond
    by_cases h : ltag = tag
    · subst h
      have hdec : decide (t < t + d - DEBOUNCE_PERIOD) = decide (DEBOUNCE_PERIOD < d) := by
        simp only [decide_eq_decide]
        omega
      simp [hdec]
    · simp [h]
  · have hiff : (t < t + d - DEBOUNCE_PERIOD) ↔ (DEBOUNCE_PERIOD < d) := by omega
    by_cases hd : DEBOUNCE_PERIOD < d
    · have h2 : debounceStep ⟨some t, some tag⟩ tag (t + d)
          = .ok (true, ⟨some (t + d), some tag⟩) := by
        rw [debounceStep_same_tag, if_pos (hiff.mpr hd)]
      simp [debounceRun, debounceStep_fresh, h2, hd]
    · have h2 : debounceStep ⟨some t, some tag⟩ tag (t + d)
          = .ok (false, ⟨some t, some tag⟩) := by
        rw [debounceStep_same_tag, if_neg (fun hc => hd (hiff.mp hc))]
      simp [debounceRun, debounceStep_fresh, h2, hd]

/-- C4 (counterexample to the claim as stated): the same identifier reported
again exactly DEBOUNCE_PERIOD = 5 seconds later is suppressed — one dispatch,
not the two the claim requires at delta equal to 5 seconds. -/
theorem debounce_at_exactly_five_suppressed :
    debounceRun ⟨none, none⟩ [("ab", 0), ("ab", 5)] = .ok (⟨some 0, some "ab"⟩, 1) ∧
    (5 : Int) - (0 : Int) ≥ DEBOUNCE_PERIOD := ⟨rfl, by decide⟩

/-- C5: the decoded text "https://www.home-assistant.io/tag/ab12-CD34" yields
the identifier "ab12-CD34", and the decoded text "https://example.com/other"
yields no identifier. -/
theorem tag_pattern_examples :
    tagIdPatternMatch "https://www.home-assistant.io/tag/ab12-CD34" = some "ab12-CD34" ∧
    tagIdPatternMatch "https://example.com/other" = none := by decide

/-- C6 (amended): a missing or JSON-unparsable configuration is a fatal startup
error — `load_config` exits with status 1 before the detector thread is
created; any configuration that parses as JSON, however, is returned without
validation and the detector thread is started. -/
theorem load_config_fatal_cases :
    mainStartup ConfigFile.missing = StartupOutcome.exited 1 ∧
    mainStartup ConfigFile.unparsable = StartupOutcome.exited 1 ∧
    ∀ c : ConfigData, mainStartup (ConfigFile.parsed c) = StartupOutcome.threadStarted c :=
  ⟨rfl, rfl, fun _ => rfl⟩

/-- C6 (counterexample to the claim as stated): a parsed configuration lacking
every recognized option is not a startup error — the detector thread is
started, and the unrecognized keys only surface later as `KeyError`. -/
theorem missing_option_starts_thread :
    mainStartup (ConfigFile.parsed ⟨[]⟩) = StartupOutcome.threadStarted ⟨[]⟩ ∧
    ConfigData.get ⟨[]⟩ "camera_rtsp_stream" = .error .keyError ∧
    ConfigData.get ⟨[]⟩ "tag_event_device_id" = .error .keyError := ⟨rfl, rfl, rfl⟩

/-- C7: if the source open fails `n` consecutive times and then succeeds, the
supervisor performs exactly `n + 1` open attempts, each failed attempt followed
by the fixed 5-second backoff, and no frame is published before the successful
open. -/
theorem supervisor_reconnection (n : Nat) (reads : List Bool) :
    supervisorRun (List.replicate n RoundOutcome.openFail ++ [RoundOutcome.openOk reads])
      = connectBackoffTrace n
        ++ SupEvent.openAttempt
          :: (streamReads reads ++ [SupEvent.release, SupEvent.sleep5]) ∧
    (supervisorRun
        (List.replicate n RoundOutcome.openFail ++ [RoundOutcome.openOk reads])).count
      SupEvent.openAttempt = n + 1 ∧
    SupEvent.publish ∉ connectBackoffTrace n := by
  have hrun : supervisorRun [RoundOutcome.openOk reads]
      = SupEvent.openAttempt :: (streamReads reads ++ [SupEvent.release, SupEvent.sleep5]) := by
    simp [supervisorRun]
  have heq := supervisorRun_replicate_fail n [RoundOutcome.openOk reads]
  rw [hrun] at heq
  refine ⟨heq, ?_, publish_not_mem_connectBackoffTrace n⟩
  rw [heq, List.count_append, count_openAttempt_connectBackoffTrace]
  simp [List.count_cons, List.count_append, count_openAttempt_streamReads]

/-- C8: the very first candidate identifier, processed with
`last_time, last_tag = None, None`, always emits — the short-circuited first
disjunct `last_tag != tag_id` is true, so the `None` timestamp is never
compared and no `TypeError` is raised. -/
theorem first_candidate_always_emits (tag : String) (now : Int) :
    debounceStep ⟨none, none⟩ tag now = .ok (true, ⟨some now, some tag⟩) := by
  simp [debounceStep, debounceCond]

/-- C9: the claim says every interrupt-terminated run exits with status 0,
including an interrupt arriving before the first connection attempt. The code
contradicts it in exactly that case: the outer loop body never runs, the local
`stream` is never bound, and the `finally` clause's `stream.release()` raises
`NameError` instead of reaching `return 0`. -/
theorem early_interrupt_name_error :
    mainSupervisorSection true = MainResult.uncaught PyError.nameError ∧
    mainSupervisorSection false = MainResult.ok 0 := ⟨rfl, rfl⟩

/-- C10: the unescaped dots and the start-only anchoring make the pattern lax:
"https://wwwXhome-assistantXio/tag/ab12" (any character where the dots were)
yields "ab12", and "https://www.home-assistant.io/tag/ab12!garbage" (arbitrary
trailing text) also yields "ab12". -/
theorem tag_pattern_lax :
    tagIdPatternMatch "https://wwwXhome-assistantXio/tag/ab12" = some "ab12" ∧
    tagIdPatternMatch "https://www.home-assistant.io/tag/ab12!garbage" = some "ab12" := by decide

end HaCamTag
